import Mathlib

/-!
Verification of the wave-concater core: the sample-domain concatenation
algorithm implemented in the repository, together with the WAV codec
contract it relies on.  Decoded audio is a sample rate plus per-channel
sequences of normalized samples; samples are modelled as rationals.
-/

/-- Error kinds of the pipeline.  `sampleRateMismatch` models the throw of
"Sample rates do not match.", `channelCountMismatch` the throw of
"Number of channels do not match."; the codec kinds follow the spec's
error taxonomy. -/
inductive ErrorKind where
  | malformedContainer
  | unsupportedFormat
  | sampleRateMismatch
  | channelCountMismatch
deriving DecidableEq, Repr

/-- Decoded audio data, mirroring the source's `WavData` type:
a sample rate and one `Float32Array` of samples per channel. -/
structure WavData where
  sampleRate : Nat
  channelData : List (List ℚ)
deriving DecidableEq, Repr

/-- The source's `concatChannelDataAsync` (with the scheduling wrapper
stripped, as it does not affect the value): the result is
`channel1 ++ channel2 ++ channel2.slice(0, sampleRate)`. -/
def concatChannelDataAsync (channel1 channel2 : List ℚ) (sampleRate : Nat) : List ℚ :=
  channel1 ++ channel2 ++ channel2.take sampleRate

/-- The source's `concatWavs`: checks sample-rate equality, then channel-count
equality, then concatenates channel `i` of both inputs for every `i`,
passing `wav2.sampleRate` as the slice bound. -/
def concatWavs (wav1 wav2 : WavData) : Except ErrorKind WavData :=
  if wav1.sampleRate ≠ wav2.sampleRate then
    .error .sampleRateMismatch
  else if wav1.channelData.length ≠ wav2.channelData.length then
    .error .channelCountMismatch
  else
    .ok { sampleRate := wav1.sampleRate
          channelData := (List.range wav1.channelData.length).map fun i =>
            concatChannelDataAsync (wav1.channelData.getD i [])
              (wav2.channelData.getD i []) wav2.sampleRate }

/-- Sample format tag of the container's format-description chunk. -/
inductive SampleFormat where
  | integer
  | floatingPoint
deriving DecidableEq, Repr

/-- Per-channel sample payload of an encoded container: quantized signed
integers for the integer formats, raw normalized samples for the
floating-point format. -/
inductive EncodedSamples where
  | intData (data : List (List ℤ))
  | floatData (data : List (List ℚ))
deriving DecidableEq, Repr

/-- An encoded WAV container, reduced to the fields the codec contract
constrains: header format descriptor plus the sample payload. -/
structure EncodedWav where
  sampleRate : Nat
  bitsPerSample : Nat
  sampleFormat : SampleFormat
  samples : EncodedSamples
deriving DecidableEq, Repr

/-- Integer quantization of one normalized sample at a given bit depth:
clip to [-1, 1], scale by 2^(bitDepth-1), round to the nearest integer,
clamp to the representable signed range. -/
def quantize (bitDepth : Nat) (x : ℚ) : ℤ :=
  max (-(2 ^ (bitDepth - 1)))
    (min (2 ^ (bitDepth - 1) - 1)
      (round (max (-1 : ℚ) (min 1 x) * 2 ^ (bitDepth - 1))))

/-- Modelled from the spec: the WAV encoder.  The source calls the external
library function `wav.encode`, whose implementation is not part of this
repository; the spec fixes its contract: bit depth 32 writes floating-point
samples unchanged, bit depths 8/16/24 write integer samples obtained by
clip-scale-round-clamp, and any other bit depth fails with
`UnsupportedFormat`. -/
def encode (buffer : WavData) (bitDepth : ℤ) : Except ErrorKind EncodedWav :=
  if bitDepth = 32 then
    .ok ⟨buffer.sampleRate, 32, .floatingPoint, .floatData buffer.channelData⟩
  else if bitDepth = 8 ∨ bitDepth = 16 ∨ bitDepth = 24 then
    .ok ⟨buffer.sampleRate, bitDepth.toNat, .integer,
      .intData (buffer.channelData.map (List.map (quantize bitDepth.toNat)))⟩
  else
    .error .unsupportedFormat

/-- Modelled from the spec: the sample conversion of the WAV decoder (the
source's `decodeWavFile` delegates to the external library function
`wav.decode`, whose implementation is not part of this repository).
Integer N-bit samples are divided by 2^(N-1); floating-point samples pass
through unchanged. -/
def decode (e : EncodedWav) : WavData :=
  { sampleRate := e.sampleRate
    channelData :=
      match e.samples with
      | .intData d => d.map (List.map fun (k : ℤ) => (k : ℚ) / 2 ^ (e.bitsPerSample - 1))
      | .floatData d => d }

/-- Value of a list of decimal digit characters. -/
def digitsToNat (ds : List Char) : Nat :=
  ds.foldl (fun acc c => 10 * acc + (c.toNat - 48)) 0

/-- Leading decimal-digit run of a character list, or `none` if empty. -/
def parseLeadingDigits (cs : List Char) : Option Nat :=
  let ds := cs.takeWhile Char.isDigit
  if ds.isEmpty then none else some (digitsToNat ds)

/-- Model of the JavaScript builtin parseInt restricted to the base-10 form
values this page produces: leading whitespace is skipped, an optional sign
is read, then the leading digit run; `none` models NaN, covering both
non-numeric strings and a missing field (`parseInt(null)` is NaN). -/
def jsParseInt (field : Option String) : Option ℤ :=
  match field with
  | none => none
  | some s =>
    match s.toList.dropWhile
        (fun c => c == ' ' || c == '\t' || c == '\n' || c == '\r') with
    | '-' :: rest => (parseLeadingDigits rest).map fun n => -(n : ℤ)
    | '+' :: rest => (parseLeadingDigits rest).map fun n => (n : ℤ)
    | rest => (parseLeadingDigits rest).map fun n => (n : ℤ)

/-- Line 82 of the source: `parseInt(formData.get("bitDepth") as string) || 32`.
A parse result of NaN, or the falsy value 0, is replaced by the default 32. -/
def submittedBitDepth (field : Option String) : ℤ :=
  match jsParseInt field with
  | none => 32
  | some 0 => 32
  | some n => n

/-- The algorithmic core of the source's `OnSubmit` handler: decode both
files, concatenate, encode at the requested bit depth.  The decoder
outcomes are taken as `Except` inputs (decoding of raw bytes happens in the
external library); the handler's single try/catch is the `Except` monad, so
the first failing stage aborts the pipeline. -/
def pipeline (decoded1 decoded2 : Except ErrorKind WavData) (bitDepth : ℤ) :
    Except ErrorKind EncodedWav := do
  let w1 ← decoded1
  let w2 ← decoded2
  let concatenated ← concatWavs w1 w2
  encode concatenated bitDepth

/-- The `OnSubmit` handler including its bit-depth form parsing. -/
def onSubmitCore (decoded1 decoded2 : Except ErrorKind WavData)
    (bitDepthField : Option String) : Except ErrorKind EncodedWav :=
  pipeline decoded1 decoded2 (submittedBitDepth bitDepthField)

lemma getD_range_map {α : Type} (f : Nat → α) (n i : Nat) (h : i < n) (d : α) :
    ((List.range n).map f).getD i d = f i := by
  rw [List.getD_eq_getElem?_getD, List.getElem?_map, List.getElem?_range h]
  rfl

lemma take_min_length {α : Type} (l : List α) (n : Nat) :
    l.take (min n l.length) = l.take n := by
  rcases le_total n l.length with h | h
  · rw [min_eq_left h]
  · rw [min_eq_right h, List.take_length, List.take_of_length_le h]

lemma concatWavs_eq_ok (w1 w2 : WavData)
    (hr : w1.sampleRate = w2.sampleRate)
    (hc : w1.channelData.length = w2.channelData.length) :
    concatWavs w1 w2 =
      .ok { sampleRate := w1.sampleRate
            channelData := (List.range w1.channelData.length).map fun i =>
              concatChannelDataAsync (w1.channelData.getD i [])
                (w2.channelData.getD i []) w2.sampleRate } := by
  simp [concatWavs, hr, hc]

/-- Claim C1: for decoded buffers with equal sample rates and channel
counts, concatenation succeeds and each output channel `i` is the intro
channel `i`, then the whole loop channel `i`, then the first
min(sampleRate, length) samples of the loop channel `i`; when the loop is
shorter than one second the entire loop channel is appended again. -/
theorem concatWavs_channel_formula (w1 w2 : WavData)
    (hr : w1.sampleRate = w2.sampleRate)
    (hc : w1.channelData.length = w2.channelData.length) :
    ∃ out, concatWavs w1 w2 = .ok out ∧
      out.channelData.length = w1.channelData.length ∧
      (∀ i, i < w1.channelData.length →
        out.channelData.getD i [] =
          w1.channelData.getD i [] ++ w2.channelData.getD i [] ++
            (w2.channelData.getD i []).take
              (min w2.sampleRate (w2.channelData.getD i []).length)) ∧
      (∀ i, i < w1.channelData.length →
        (w2.channelData.getD i []).length < w2.sampleRate →
        out.channelData.getD i [] =
          w1.channelData.getD i [] ++ w2.channelData.getD i [] ++
            w2.channelData.getD i []) := by
  refine ⟨_, concatWavs_eq_ok w1 w2 hr hc, ?_, ?_, ?_⟩
  · simp
  · intro i hi
    rw [getD_range_map _ _ i hi, concatChannelDataAsync, take_min_length]
  · intro i hi hshort
    rw [getD_range_map _ _ i hi, concatChannelDataAsync,
      List.take_of_length_le (le_of_lt hshort)]

/-- Witness for C1 at a concrete valid pair whose loop is shorter than one
second of samples. -/
theorem concatWavs_channel_formula_witness :
    ∃ out, concatWavs ⟨4, [[1, 2]]⟩ ⟨4, [[5, 6, 7]]⟩ = .ok out ∧
      out.channelData.length = 1 ∧
      (∀ i, i < 1 →
        out.channelData.getD i [] =
          [[(1 : ℚ), 2]].getD i [] ++ [[(5 : ℚ), 6, 7]].getD i [] ++
            ([[(5 : ℚ), 6, 7]].getD i []).take
              (min 4 ([[(5 : ℚ), 6, 7]].getD i []).length)) ∧
      (∀ i, i < 1 →
        ([[(5 : ℚ), 6, 7]].getD i []).length < 4 →
        out.channelData.getD i [] =
          [[(1 : ℚ), 2]].getD i [] ++ [[(5 : ℚ), 6, 7]].getD i [] ++
            [[(5 : ℚ), 6, 7]].getD i []) :=
  concatWavs_channel_formula ⟨4, [[1, 2]]⟩ ⟨4, [[5, 6, 7]]⟩ rfl rfl

/-- Claim C2: for every valid intro/loop pair, each output channel has
length intro.length + loop.length + min(sampleRate, loop.length). -/
theorem concatWavs_length_law (w1 w2 : WavData)
    (hr : w1.sampleRate = w2.sampleRate)
    (hc : w1.channelData.length = w2.channelData.length) :
    ∃ out, concatWavs w1 w2 = .ok out ∧
      ∀ i, i < w1.channelData.length →
        (out.channelData.getD i []).length =
          (w1.channelData.getD i []).length +
            (w2.channelData.getD i []).length +
            min w2.sampleRate (w2.channelData.getD i []).length := by
  refine ⟨_, concatWavs_eq_ok w1 w2 hr hc, ?_⟩
  intro i hi
  rw [getD_range_map _ _ i hi, concatChannelDataAsync]
  simp [List.length_append, List.length_take, Nat.add_assoc]

/-- Witness for C2 at a concrete valid pair. -/
theorem concatWavs_length_law_witness :
    ∃ out, concatWavs ⟨2, [[1, 2, 3]]⟩ ⟨2, [[4]]⟩ = .ok out ∧
      ∀ i, i < 1 →
        (out.channelData.getD i []).length =
          ([[(1 : ℚ), 2, 3]].getD i []).length + ([[(4 : ℚ)]].getD i []).length +
            min 2 ([[(4 : ℚ)]].getD i []).length :=
  concatWavs_length_law ⟨2, [[1, 2, 3]]⟩ ⟨2, [[4]]⟩ rfl rfl

/-- Claim C4: mismatched sample rates always fail with the
sample-rate-mismatch error, never producing output. -/
theorem concatWavs_sampleRateMismatch (w1 w2 : WavData)
    (h : w1.sampleRate ≠ w2.sampleRate) :
    concatWavs w1 w2 = .error .sampleRateMismatch := by
  simp [concatWavs, h]

/-- Witness for C4: 44100 Hz against 48000 Hz. -/
theorem concatWavs_sampleRateMismatch_witness :
    concatWavs ⟨44100, [[0]]⟩ ⟨48000, [[0]]⟩ = .error .sampleRateMismatch :=
  concatWavs_sampleRateMismatch ⟨44100, [[0]]⟩ ⟨48000, [[0]]⟩ (by decide)

/-- Claim C5: equal sample rates but different channel counts fail with the
channel-count-mismatch error. -/
theorem concatWavs_channelCountMismatch (w1 w2 : WavData)
    (hr : w1.sampleRate = w2.sampleRate)
    (hc : w1.channelData.length ≠ w2.channelData.length) :
    concatWavs w1 w2 = .error .channelCountMismatch := by
  simp [concatWavs, hr, hc]

/-- Witness for C5: mono against stereo at the same rate. -/
theorem concatWavs_channelCountMismatch_witness :
    concatWavs ⟨44100, [[0]]⟩ ⟨44100, [[0], [0]]⟩ = .error .channelCountMismatch :=
  concatWavs_channelCountMismatch ⟨44100, [[0]]⟩ ⟨44100, [[0], [0]]⟩ rfl (by decide)

/-- Claim C3: for bit depths 8, 16 and 24 the encoder emits integer-format
samples, each obtained by clipping to [-1, 1], scaling by 2^(bitDepth-1),
rounding to the nearest integer and clamping to the representable signed
range; only bit depth 32 emits floating-point format, with the samples
written unchanged. -/
theorem encode_sample_format (w : WavData) (bd : ℤ)
    (hbd : bd = 8 ∨ bd = 16 ∨ bd = 24) :
    encode w bd = .ok ⟨w.sampleRate, bd.toNat, .integer,
        .intData (w.channelData.map (List.map fun x =>
          max (-(2 ^ (bd.toNat - 1)))
            (min (2 ^ (bd.toNat - 1) - 1)
              (round (max (-1 : ℚ) (min 1 x) * 2 ^ (bd.toNat - 1))))))⟩ ∧
    encode w 32 = .ok ⟨w.sampleRate, 32, .floatingPoint,
        .floatData w.channelData⟩ := by
  constructor
  · rcases hbd with h | h | h <;> subst h <;> simp [encode, quantize]
  · simp [encode]

/-- Witness for C3 at bit depth 8 on samples requiring clipping on both
sides and positive-overflow clamping. -/
theorem encode_sample_format_witness :
    encode ⟨44100, [[1, -2, 1/2]]⟩ 8 =
      .ok ⟨44100, 8, .integer, .intData [[127, -128, 64]]⟩ :=
  ((encode_sample_format ⟨44100, [[1, -2, 1/2]]⟩ 8 (Or.inl rfl)).1).trans (by
    have ht : Int.toNat 8 = 8 := rfl
    norm_num [ht, round_eq])

/-- Claim C6: any bit depth outside 8, 16, 24 and 32 makes the encoder fail
with the unsupported-format error. -/
theorem encode_unsupportedFormat (w : WavData) (bd : ℤ)
    (h8 : bd ≠ 8) (h16 : bd ≠ 16) (h24 : bd ≠ 24) (h32 : bd ≠ 32) :
    encode w bd = .error .unsupportedFormat := by
  simp [encode, h8, h16, h24, h32]

/-- Witness for C6 at bit depth 12. -/
theorem encode_unsupportedFormat_witness :
    encode ⟨44100, [[0]]⟩ 12 = .error .unsupportedFormat :=
  encode_unsupportedFormat ⟨44100, [[0]]⟩ 12 (by decide) (by decide) (by decide)
    (by decide)

/-- Claim C7: for a buffer whose samples all lie in [-1, 1], encoding at
bit depth 32 succeeds and decoding the result reproduces the buffer
exactly: the floating-point path neither clips nor quantizes. -/
theorem decode_encode_roundTrip (w : WavData)
    (hin : ∀ c ∈ w.channelData, ∀ x ∈ c, -1 ≤ x ∧ x ≤ 1) :
    ∃ e, encode w 32 = .ok e ∧ decode e = w := by
  refine ⟨⟨w.sampleRate, 32, .floatingPoint, .floatData w.channelData⟩, ?_, rfl⟩
  simp [encode]

/-- Witness for C7 on a concrete in-range buffer. -/
theorem decode_encode_roundTrip_witness :
    ∃ e, encode ⟨2, [[1, -1/2], [0, 1/4]]⟩ 32 = .ok e ∧
      decode e = ⟨2, [[1, -1/2], [0, 1/4]]⟩ :=
  decode_encode_roundTrip ⟨2, [[1, -1/2], [0, 1/4]]⟩ (by norm_num)

/-- Claim C8: concatenation is channel-independent: duplicating a mono
intro/loop pair into stereo yields, in each of the two output channels,
exactly the sample sequence the mono concatenation produces. -/
theorem concatWavs_channel_independent (sr : Nat) (a b : List ℚ) :
    ∃ r, concatWavs ⟨sr, [a]⟩ ⟨sr, [b]⟩ = .ok ⟨sr, [r]⟩ ∧
      concatWavs ⟨sr, [a, a]⟩ ⟨sr, [b, b]⟩ = .ok ⟨sr, [r, r]⟩ := by
  refine ⟨concatChannelDataAsync a b sr, ?_, ?_⟩ <;>
    simp [concatWavs, List.range_succ]

/-- Claim C9: the pipeline aborts at the first failing stage and the caller
receives only that error, never a partial result: a failed first decode, a
failed second decode, a failed concatenation, or a failed encode each make
the whole pipeline return exactly that error. -/
theorem pipeline_aborts_on_first_failure
    (d1 d2 : Except ErrorKind WavData) (bd : ℤ) :
    (∀ k, d1 = .error k → pipeline d1 d2 bd = .error k) ∧
    (∀ w1 k, d1 = .ok w1 → d2 = .error k → pipeline d1 d2 bd = .error k) ∧
    (∀ w1 w2 k, d1 = .ok w1 → d2 = .ok w2 → concatWavs w1 w2 = .error k →
      pipeline d1 d2 bd = .error k) ∧
    (∀ w1 w2 c k, d1 = .ok w1 → d2 = .ok w2 → concatWavs w1 w2 = .ok c →
      encode c bd = .error k → pipeline d1 d2 bd = .error k) := by
  refine ⟨?_, ?_, ?_, ?_⟩
  · intro k h
    subst h
    rfl
  · intro w1 k h1 h2
    subst h1
    subst h2
    rfl
  · intro w1 w2 k h1 h2 h3
    subst h1
    subst h2
    have hb : pipeline (.ok w1) (.ok w2) bd =
        Except.bind (concatWavs w1 w2) fun c => encode c bd := rfl
    rw [hb, h3]
    rfl
  · intro w1 w2 c k h1 h2 h3 h4
    subst h1
    subst h2
    have hb : pipeline (.ok w1) (.ok w2) bd =
        Except.bind (concatWavs w1 w2) fun c => encode c bd := rfl
    rw [hb, h3]
    exact h4

/-- Witness for C9: a decode failure on the first file propagates as the
pipeline's only outcome. -/
theorem pipeline_aborts_witness :
    pipeline (.error .malformedContainer) (.ok ⟨44100, [[0]]⟩) 32 =
      .error .malformedContainer :=
  (pipeline_aborts_on_first_failure (.error .malformedContainer)
    (.ok ⟨44100, [[0]]⟩) 32).1 .malformedContainer rfl

/-- Claim C10: a submitted bit-depth field whose parse result is NaN or 0
is silently replaced by the default 32: the handler proceeds to encode at
bit depth 32 instead of rejecting the input. -/
theorem submittedBitDepth_default (field : Option String)
    (h : jsParseInt field = none ∨ jsParseInt field = some 0) :
    submittedBitDepth field = 32 ∧
    ∀ d1 d2, onSubmitCore d1 d2 field = pipeline d1 d2 32 := by
  have h32 : submittedBitDepth field = 32 := by
    rcases h with h | h <;> simp [submittedBitDepth, h]
  exact ⟨h32, fun d1 d2 => by rw [onSubmitCore, h32]⟩

/-- Witness for C10 on a non-numeric form value. -/
theorem submittedBitDepth_default_witness :
    submittedBitDepth (some ("abc")) = 32 ∧
    ∀ d1 d2, onSubmitCore d1 d2 (some ("abc")) = pipeline d1 d2 32 :=
  submittedBitDepth_default (some ("abc")) (Or.inl rfl)
